import Mathlib

/-!
Shallow embedding of the MCP server core of the `loco` repository
(`src/mcp/types.rs`, `src/mcp/tools.rs`, `src/mcp/protocol.rs`,
`src/mcp/transport.rs`), together with theorems settling the claims about it.

Modelling conventions:
* `serde_json::Value` is the inductive `Json` below; `f64`-backed numbers are
  carried as rationals (`ℚ`), the stand-in for IEEE doubles wherever the code
  manipulates them (exact for the small decimal literals the theorems use).
* Fallible Rust code (`Result<T, Error>`) becomes `Except String T`; the host
  framework's `Error` type lives in `errors.rs`, which is not part of the MCP
  sources, so it is modelled from the spec (see `ErrorMsg`).
* `serde_json::to_value(..)` is modelled by `ser_*` functions returning
  `Except String Json`, mirroring the error propagation of the derived
  `Serialize` impls; the `.unwrap()` calls in the protocol handler become the
  `Option` layer of `handle_request` (`none` = panic), so totality of the
  handler is a real theorem, not a typing triviality.
* The async race `tokio::time::timeout(tool.timeout(), tool.execute(args))`
  is modelled by an explicit scheduler oracle `finishes : Bool` saying whether
  the tool's future completes before the deadline.
-/

namespace Mcp

/-- JSON values, modelling `serde_json::Value`.  `num` is an integer-backed
`serde_json::Number`, `fnum` a float-backed one (`f64` modelled as `ℚ`).
Objects model `Map<String, Value>`; keys are unique in values produced by
decoding, and lookups take the first occurrence. -/
inductive Json where
  | null
  | bool (b : Bool)
  | num (n : Int)
  | fnum (q : ℚ)
  | str (s : String)
  | arr (elems : List Json)
  | obj (fields : List (String × Json))

/-- `Value::as_str`. -/
def Json.as_str : Json → Option String
  | .str s => some s
  | _ => none

/-- `Value::as_bool`. -/
def Json.as_bool : Json → Option Bool
  | .bool b => some b
  | _ => none

/-- `Value::as_u64`: only integer-backed numbers that are non-negative. -/
def Json.as_u64 : Json → Option Nat
  | .num n => if 0 ≤ n then some n.toNat else none
  | _ => none

/-- `Value::is_string`. -/
def Json.is_string : Json → Bool
  | .str _ => true
  | _ => false

/-- `Value::is_boolean`. -/
def Json.is_boolean : Json → Bool
  | .bool _ => true
  | _ => false

/-- `Value::is_u64`. -/
def Json.is_u64 (j : Json) : Bool :=
  j.as_u64.isSome

/-- `HashMap<String, serde_json::Value>` (tool arguments, metadata maps). -/
abbrev ArgsMap := List (String × Json)

/-- JSON-RPC request id (`types.rs`, `RequestId`): string, number or null. -/
inductive RequestId where
  | string (s : String)
  | number (n : Nat)
  | null
  deriving DecidableEq

/-- `types.rs` `McpError`: code, message, optional data. -/
structure McpError where
  code : Int
  message : String
  data : Option Json

/-- `McpError::new`. -/
def McpError.new (code : Int) (message : String) : McpError :=
  ⟨code, message, none⟩

/-- `McpError::parse_error` (-32700). -/
def McpError.parse_error (message : String) : McpError :=
  McpError.new (-32700) message

/-- `McpError::invalid_request` (-32600). -/
def McpError.invalid_request (message : String) : McpError :=
  McpError.new (-32600) message

/-- `McpError::method_not_found` (-32601). -/
def McpError.method_not_found (message : String) : McpError :=
  McpError.new (-32601) message

/-- `McpError::invalid_params` (-32602). -/
def McpError.invalid_params (message : String) : McpError :=
  McpError.new (-32602) message

/-- `McpError::internal_error` (-32603). -/
def McpError.internal_error (message : String) : McpError :=
  McpError.new (-32603) message

/-- `types.rs` `McpRequest`. -/
structure McpRequest where
  id : RequestId
  method : String
  params : Option Json
  meta : Option (List (String × Json))

/-- `types.rs` `McpResponse`. -/
structure McpResponse where
  id : RequestId
  result : Option Json
  error : Option McpError
  meta : Option (List (String × Json))

/-- `McpResponse::success`: result set, error absent. -/
def McpResponse.success (id : RequestId) (result : Json) : McpResponse :=
  ⟨id, some result, none, none⟩

/-- `McpResponse::error`: error set, result absent (named `mkError` in Lean
only because the structure already has a field called `error`). -/
def McpResponse.mkError (id : RequestId) (error : McpError) : McpResponse :=
  ⟨id, none, some error, none⟩

/-- `types.rs` `Tool` definition record. -/
structure Tool where
  name : String
  description : String
  input_schema : Json
  output_schema : Option Json
  metadata : Option (List (String × Json))

/-- `types.rs` `Resource`. -/
structure Resource where
  uri : String
  name : String
  description : Option String
  mime_type : Option String
  metadata : Option (List (String × Json))

/-- `types.rs` `PromptArgument`. -/
structure PromptArgument where
  name : String
  description : String
  required : Bool
  default : Option Json

/-- `types.rs` `Prompt`. -/
structure Prompt where
  name : String
  description : String
  arguments : List PromptArgument
  metadata : Option (List (String × Json))

/-- `types.rs` `ToolCapabilities`. -/
structure ToolCapabilities where
  list_changed : Option Bool

/-- `types.rs` `ResourceCapabilities`. -/
structure ResourceCapabilities where
  subscribe : Option Bool
  list_changed : Option Bool

/-- `types.rs` `PromptCapabilities`. -/
structure PromptCapabilities where
  list_changed : Option Bool

/-- `types.rs` `LoggingCapabilities`. -/
structure LoggingCapabilities where
  level : Option String

/-- `types.rs` `ServerCapabilities`. -/
structure ServerCapabilities where
  tools : Option ToolCapabilities
  resources : Option ResourceCapabilities
  prompts : Option PromptCapabilities
  logging : Option LoggingCapabilities

/-- `types.rs` `ServerInfo`. -/
structure ServerInfo where
  name : String
  version : String
  protocol_version : String
  capabilities : ServerCapabilities
  server_info : Option (List (String × Json))

/-- `types.rs` `ClientCapabilities`. -/
structure ClientCapabilities where
  experimental : Option (List (String × Json))

/-- `types.rs` `ClientInfo`. -/
structure ClientInfo where
  name : String
  version : String

/-- `types.rs` `InitializeRequest`. -/
structure InitializeRequest where
  protocol_version : String
  capabilities : ClientCapabilities
  client_info : ClientInfo

/-- `types.rs` `InitializeResponse`. -/
structure InitializeResponse where
  protocol_version : String
  capabilities : ServerCapabilities
  server_info : ServerInfo

/-- `types.rs` `Content` blocks (serde tag `type`, variant names verbatim). -/
inductive Content where
  | text (text : String)
  | image (data : String) (mime_type : String)
  | resource (resource : Resource) (text : Option String)

/-- `types.rs` `CallToolRequest`. -/
structure CallToolRequest where
  name : String
  arguments : Option ArgsMap

/-- `types.rs` `CallToolResponse`. -/
structure CallToolResponse where
  content : List Content
  is_progress : Option Bool

/-- `types.rs` `ListToolsRequest`. -/
structure ListToolsRequest where
  cursor : Option String

/-- `types.rs` `ListToolsResponse`. -/
structure ListToolsResponse where
  tools : List Tool
  next_cursor : Option String

/-- `types.rs` `ListResourcesRequest`. -/
structure ListResourcesRequest where
  cursor : Option String

/-- `types.rs` `ListResourcesResponse`. -/
structure ListResourcesResponse where
  resources : List Resource
  next_cursor : Option String

/-- `types.rs` `ListPromptsRequest`. -/
structure ListPromptsRequest where
  cursor : Option String

/-- `types.rs` `ListPromptsResponse`. -/
structure ListPromptsResponse where
  prompts : List Prompt
  next_cursor : Option String

/-- Modelled from the spec: the host framework's error type (`errors.rs`, not
among the MCP sources) reaches this subsystem only as `Error::Message(String)`,
and §7's propagation policy has every failure surface as its message text
(e.g. Scenario C: "message mentioning the missing argument").  We therefore
model an `Error` value as its message string, displayed verbatim. -/
abbrev ErrorMsg := String

/-! ## Serialization (`serde_json::to_value`)

Each `ser_*` function mirrors the derived `Serialize` impl of the
corresponding Rust type: fields are serialized in declaration order into an
object under their Rust field names, `Option` fields as `null` when `None`,
and sub-serializer failures propagate — exactly the shape of the `Result`
plumbing inside serde.  The leaves never fail, which is what makes the
`.unwrap()` calls in `protocol.rs` safe; that fact is proved, not assumed. -/

/-- Serializing a `serde_json::Value` yields the value itself. -/
def ser_json (j : Json) : Except String Json := .ok j

/-- Serializing a `String`. -/
def ser_str (s : String) : Except String Json := .ok (.str s)

/-- Serializing a `bool`. -/
def ser_bool (b : Bool) : Except String Json := .ok (.bool b)

/-- Serializing an `Option<T>`: `None` becomes JSON `null`. -/
def ser_opt (f : α → Except String Json) : Option α → Except String Json
  | none => .ok .null
  | some x => f x

/-- Serializing a `HashMap<String, Value>`: keys are already strings, so this
cannot hit serde's non-string-key failure. -/
def ser_strmap (m : List (String × Json)) : Except String Json := .ok (.obj m)

/-- Serializing a `Vec<T>`, propagating element failures. -/
def ser_list (f : α → Except String Json) (xs : List α) : Except String Json := do
  let js ← xs.mapM f
  .ok (.arr js)

/-- Serialize `ToolCapabilities`. -/
def ser_ToolCapabilities (c : ToolCapabilities) : Except String Json := do
  let lc ← ser_opt ser_bool c.list_changed
  .ok (.obj [("list_changed", lc)])

/-- Serialize `ResourceCapabilities`. -/
def ser_ResourceCapabilities (c : ResourceCapabilities) : Except String Json := do
  let sub ← ser_opt ser_bool c.subscribe
  let lc ← ser_opt ser_bool c.list_changed
  .ok (.obj [("subscribe", sub), ("list_changed", lc)])

/-- Serialize `PromptCapabilities`. -/
def ser_PromptCapabilities (c : PromptCapabilities) : Except String Json := do
  let lc ← ser_opt ser_bool c.list_changed
  .ok (.obj [("list_changed", lc)])

/-- Serialize `LoggingCapabilities`. -/
def ser_LoggingCapabilities (c : LoggingCapabilities) : Except String Json := do
  let lv ← ser_opt ser_str c.level
  .ok (.obj [("level", lv)])

/-- Serialize `ServerCapabilities`. -/
def ser_ServerCapabilities (c : ServerCapabilities) : Except String Json := do
  let t ← ser_opt ser_ToolCapabilities c.tools
  let r ← ser_opt ser_ResourceCapabilities c.resources
  let p ← ser_opt ser_PromptCapabilities c.prompts
  let l ← ser_opt ser_LoggingCapabilities c.logging
  .ok (.obj [("tools", t), ("resources", r), ("prompts", p), ("logging", l)])

/-- Serialize `ServerInfo`. -/
def ser_ServerInfo (si : ServerInfo) : Except String Json := do
  let caps ← ser_ServerCapabilities si.capabilities
  let extra ← ser_opt ser_strmap si.server_info
  .ok (.obj [("name", .str si.name), ("version", .str si.version),
             ("protocol_version", .str si.protocol_version),
             ("capabilities", caps), ("server_info", extra)])

/-- Serialize `InitializeResponse`. -/
def ser_InitializeResponse (r : InitializeResponse) : Except String Json := do
  let caps ← ser_ServerCapabilities r.capabilities
  let si ← ser_ServerInfo r.server_info
  .ok (.obj [("protocol_version", .str r.protocol_version),
             ("capabilities", caps), ("server_info", si)])

/-- Serialize `Tool`. -/
def ser_Tool (t : Tool) : Except String Json := do
  let os ← ser_opt ser_json t.output_schema
  let md ← ser_opt ser_strmap t.metadata
  .ok (.obj [("name", .str t.name), ("description", .str t.description),
             ("input_schema", t.input_schema), ("output_schema", os),
             ("metadata", md)])

/-- Serialize `ListToolsResponse`. -/
def ser_ListToolsResponse (r : ListToolsResponse) : Except String Json := do
  let ts ← ser_list ser_Tool r.tools
  let nc ← ser_opt ser_str r.next_cursor
  .ok (.obj [("tools", ts), ("next_cursor", nc)])

/-- Serialize `Resource`. -/
def ser_Resource (r : Resource) : Except String Json := do
  let d ← ser_opt ser_str r.description
  let mt ← ser_opt ser_str r.mime_type
  let md ← ser_opt ser_strmap r.metadata
  .ok (.obj [("uri", .str r.uri), ("name", .str r.name), ("description", d),
             ("mime_type", mt), ("metadata", md)])

/-- Serialize a `Content` block (serde tag field `type`, variant name verbatim). -/
def ser_Content : Content → Except String Json
  | .text t => .ok (.obj [("type", .str "Text"), ("text", .str t)])
  | .image d mt => .ok (.obj [("type", .str "Image"), ("data", .str d), ("mime_type", .str mt)])
  | .resource r t => do
      let rj ← ser_Resource r
      let tj ← ser_opt ser_str t
      .ok (.obj [("type", .str "Resource"), ("resource", rj), ("text", tj)])

/-- Serialize `CallToolResponse`. -/
def ser_CallToolResponse (r : CallToolResponse) : Except String Json := do
  let cs ← ser_list ser_Content r.content
  let ip ← ser_opt ser_bool r.is_progress
  .ok (.obj [("content", cs), ("is_progress", ip)])

/-- Serialize `ListResourcesResponse`. -/
def ser_ListResourcesResponse (r : ListResourcesResponse) : Except String Json := do
  let rs ← ser_list ser_Resource r.resources
  let nc ← ser_opt ser_str r.next_cursor
  .ok (.obj [("resources", rs), ("next_cursor", nc)])

/-- Serialize `PromptArgument`. -/
def ser_PromptArgument (a : PromptArgument) : Except String Json := do
  let d ← ser_opt ser_json a.default
  .ok (.obj [("name", .str a.name), ("description", .str a.description),
             ("required", .bool a.required), ("default", d)])

/-- Serialize `Prompt`. -/
def ser_Prompt (p : Prompt) : Except String Json := do
  let args ← ser_list ser_PromptArgument p.arguments
  let md ← ser_opt ser_strmap p.metadata
  .ok (.obj [("name", .str p.name), ("description", .str p.description),
             ("arguments", args), ("metadata", md)])

/-- Serialize `ListPromptsResponse`. -/
def ser_ListPromptsResponse (r : ListPromptsResponse) : Except String Json := do
  let ps ← ser_list ser_Prompt r.prompts
  let nc ← ser_opt ser_str r.next_cursor
  .ok (.obj [("prompts", ps), ("next_cursor", nc)])

/-! ## Tool system (`tools.rs`) -/

/-- Rust `Duration` restricted to the whole seconds this code uses
(`Duration::from_secs`); rendered as its Debug form, e.g. `30s`. -/
def format_duration (secs : Nat) : String := toString secs ++ "s"

/-- An implementation of the `McpTool` trait: its `tool_def`, `validate_args`
and `execute` methods and its declared `timeout()` in seconds (trait default:
`Duration::from_secs(30)`).  `execute` gives the value the tool's future
resolves to; whether that happens before the registry's deadline is decided
by the scheduler oracle passed to `execute_tool`. -/
structure McpToolModel where
  tool_def : Tool
  validate_args : ArgsMap → Except ErrorMsg Unit
  execute : ArgsMap → Except ErrorMsg CallToolResponse
  timeout : Nat := 30

/-- The contents of `ToolRegistry.tools` (a `DashMap<String, Box<dyn McpTool>>`):
an association list with unique keys; lookups take the first binding. -/
abbrev RegState := List (String × McpToolModel)

/-- `DashMap::contains_key`. -/
def contains_key (reg : RegState) (name : String) : Bool :=
  (reg.lookup name).isSome

/-- `ToolRegistry::register_tool`: refuse a name that is already present
(leaving the map untouched), otherwise insert the tool. -/
def register_tool (reg : RegState) (name : String) (tool : McpToolModel) :
    Except ErrorMsg Unit × RegState :=
  if contains_key reg name then
    (.error ("Tool '" ++ name ++ "' already registered"), reg)
  else
    (.ok (), reg ++ [(name, tool)])

/-- `ToolRegistry::unregister_tool`. -/
def unregister_tool (reg : RegState) (name : String) : Bool × RegState :=
  (contains_key reg name, reg.filter (fun p => p.1 ≠ name))

/-- `ToolRegistry::list_tools`: the `tool_def()` of every registered tool. -/
def list_tools (reg : RegState) : List Tool :=
  reg.map (fun p => p.2.tool_def)

/-- `ToolRegistry::has_tool`. -/
def has_tool (reg : RegState) (name : String) : Bool :=
  contains_key reg name

/-- `ToolRegistry::tool_count`. -/
def tool_count (reg : RegState) : Nat :=
  reg.length

/-- `ToolRegistry::execute_tool`: look the tool up (else a not-found error),
validate the arguments synchronously, then race `tool.execute(args)` against
`tokio::time::timeout(tool.timeout(), ..)`.  `finishes` is the scheduler
oracle: whether the tool's future completes before the deadline; the three
arms mirror the Rust `match` on `Ok(Ok(..)) / Ok(Err(..)) / Err(_)`. -/
def execute_tool (reg : RegState) (name : String) (args : ArgsMap)
    (finishes : Bool) : Except ErrorMsg CallToolResponse :=
  match reg.lookup name with
  | none => .error ("Tool '" ++ name ++ "' not found")
  | some tool =>
    match tool.validate_args args with
    | .error e => .error e
    | .ok _ =>
      if finishes then
        match tool.execute args with
        | .ok response => .ok response
        | .error e => .error e
      else
        .error ("Tool '" ++ name ++ "' execution timed out after " ++
                format_duration tool.timeout)

/-! ### Built-in echo tool (`EchoTool`) -/

/-- `EchoTool::tool_def`. -/
def echo_tool_def : Tool :=
  { name := "echo"
    description := "Echo back the input text"
    input_schema := Json.obj
      [("type", .str "object"),
       ("properties", .obj
         [("text", .obj [("type", .str "string"),
                         ("description", .str "Text to echo back")]),
          ("uppercase", .obj [("type", .str "boolean"),
                              ("description", .str "Convert to uppercase"),
                              ("default", .bool false)])]),
       ("required", .arr [.str "text"])]
    output_schema := none
    metadata := none }

/-- `EchoTool::execute`.  Rust `str::to_uppercase` is modelled by Lean's
`String.toUpper` (they agree on ASCII; no claim exercises other characters). -/
def echo_execute (args : ArgsMap) : Except ErrorMsg CallToolResponse :=
  match (args.lookup "text").bind Json.as_str with
  | none => .error "Missing 'text' argument"
  | some text =>
    let uppercase := ((args.lookup "uppercase").bind Json.as_bool).getD false
    let result_text := if uppercase then text.toUpper else text
    .ok { content := [Content.text result_text], is_progress := none }

/-- `EchoTool::validate_args`. -/
def echo_validate_args (args : ArgsMap) : Except ErrorMsg Unit :=
  match args.lookup "text" with
  | none => .error "Missing required 'text' argument"
  | some text_value =>
    if !text_value.is_string then
      .error "'text' must be a string"
    else
      match args.lookup "uppercase" with
      | some uppercase_value =>
        if !uppercase_value.is_boolean then
          .error "'uppercase' must be a boolean"
        else
          .ok ()
      | none => .ok ()

/-- The `EchoTool` implementation of the `McpTool` trait; `timeout` is the
trait default of 30 seconds. -/
def echoTool : McpToolModel :=
  { tool_def := echo_tool_def
    validate_args := echo_validate_args
    execute := echo_execute }

/-! ### Built-in calculate tool (`CalculateTool`)

The tool does its arithmetic on `f64`; the model carries the values as exact
rationals.  On the decimal literals and small integer results exercised by the
theorems below the two agree exactly. -/

/-- Rust `str::trim` (leading and trailing whitespace removed; the characters
the claims exercise are ASCII, where Rust's Unicode trim and this one agree). -/
def rust_trim (s : String) : String :=
  String.mk (((s.toList.dropWhile Char.isWhitespace).reverse.dropWhile
    Char.isWhitespace).reverse)

/-- Rust `str::contains(char)`. -/
def rust_contains (s : String) (c : Char) : Bool :=
  s.toList.contains c

/-- Rust `str::split(char)` on character lists: `n` separators yield `n + 1`
parts, empty parts included. -/
def split_char_aux (sep : Char) : List Char → List (List Char)
  | [] => [[]]
  | c :: cs =>
    let rest := split_char_aux sep cs
    if c = sep then [] :: rest
    else
      match rest with
      | [] => [[c]]
      | p :: ps => (c :: p) :: ps

/-- Rust `str::split(char).collect::<Vec<&str>>()`. -/
def rust_split (s : String) (sep : Char) : List String :=
  (split_char_aux sep s.toList).map String.mk

/-- Whether every character is an ASCII digit. -/
def all_digits (cs : List Char) : Bool := cs.all (fun c => c.isDigit)

/-- Value of a digit string (most significant first). -/
def digits_to_nat (cs : List Char) : Nat :=
  cs.foldl (fun a c => a * 10 + (c.toNat - 48)) 0

/-- Rational arithmetic written through `Rat.divInt` on numerators and
denominators, so that concrete runs reduce inside the kernel; each operation
is proved equal to the corresponding field operation on `ℚ` below
(`q_add_eq` etc.). -/
def q_add (a b : ℚ) : ℚ :=
  Rat.divInt (a.num * b.den + b.num * a.den) ((a.den : Int) * b.den)

/-- Subtraction on `ℚ` through `Rat.divInt`; see `q_sub_eq`. -/
def q_sub (a b : ℚ) : ℚ :=
  Rat.divInt (a.num * b.den - b.num * a.den) ((a.den : Int) * b.den)

/-- Multiplication on `ℚ` through `Rat.divInt`; see `q_mul_eq`. -/
def q_mul (a b : ℚ) : ℚ :=
  Rat.divInt (a.num * b.num) ((a.den : Int) * b.den)

/-- Division on `ℚ` through `Rat.divInt`; see `q_div_eq`. -/
def q_div (a b : ℚ) : ℚ :=
  Rat.divInt (a.num * b.den) ((a.den : Int) * b.num)

/-- Model of Rust `str::parse::<f64>()` restricted to finite decimal literals:
optional sign, then digits with an optional point (`"1."` and `".5"` parse,
`""`, `"."` and anything non-numeric do not).  Exponents, `inf` and `nan` are
outside the fragment any claim touches; the value is the exact decimal,
standing in for its `f64` rounding. -/
def parse_float (s : String) : Option ℚ :=
  match s.toList with
  | [] => none
  | cs₀ =>
    let signed : Bool × List Char :=
      match cs₀ with
      | '-' :: rest => (true, rest)
      | '+' :: rest => (false, rest)
      | _ => (false, cs₀)
    let neg := signed.1
    let cs := signed.2
    let int_part := cs.takeWhile (fun c => c ≠ '.')
    let rest := cs.dropWhile (fun c => c ≠ '.')
    let mag : Option (Int × Int) :=
      match rest with
      | [] =>
        if all_digits int_part ∧ int_part ≠ [] then
          some ((digits_to_nat int_part : Int), 1)
        else none
      | _ :: frac =>
        if all_digits int_part ∧ all_digits frac ∧ (int_part ≠ [] ∨ frac ≠ []) then
          some ((digits_to_nat int_part * 10 ^ frac.length + digits_to_nat frac : Int),
                ((10 : Int) ^ frac.length))
        else none
    mag.map (fun m => Rat.divInt (if neg then -m.1 else m.1) m.2)

/-- Floor of a rational, computed by floor division of numerator by
denominator (kept elementary so that concrete evaluations reduce). -/
def rat_floor (q : ℚ) : Int :=
  q.num.fdiv q.den

/-- Ceiling of a rational. -/
def rat_ceil (q : ℚ) : Int :=
  -rat_floor (-q)

/-- Rust `f64::round`: nearest integer, ties away from zero. -/
def round_f64 (q : ℚ) : Int :=
  if 0 ≤ q then rat_floor (q_add q (Rat.divInt 1 2))
  else rat_ceil (q_sub q (Rat.divInt 1 2))

/-- `CalculateTool::evaluate_expression`, fall-through cascade, last stage:
parse the whole expression as a single number. -/
def calc_try_single (e : String) : Except ErrorMsg ℚ :=
  match parse_float e with
  | some v => .ok v
  | none => .error "Invalid expression format"

/-- `CalculateTool::evaluate_expression`, the `'/'` block: two operands
required, division by zero rejected, result rounded via `* 100 / 100`. -/
def calc_step_div (e : String) : Except ErrorMsg ℚ :=
  if rust_contains e '/' then
    match rust_split e '/' with
    | [l, r] =>
      match parse_float (rust_trim l) with
      | none => .error "Invalid left operand"
      | some left =>
        match parse_float (rust_trim r) with
        | none => .error "Invalid right operand"
        | some right =>
          if right = 0 then .error "Division by zero"
          else .ok (Rat.divInt (round_f64 (q_mul (q_div left right) 100)) 100)
    | _ => calc_try_single e
  else calc_try_single e

/-- `CalculateTool::evaluate_expression`, the `'*'` block. -/
def calc_step_mul (e : String) : Except ErrorMsg ℚ :=
  if rust_contains e '*' then
    match rust_split e '*' with
    | [l, r] =>
      match parse_float (rust_trim l) with
      | none => .error "Invalid left operand"
      | some left =>
        match parse_float (rust_trim r) with
        | none => .error "Invalid right operand"
        | some right => .ok (Rat.divInt (round_f64 (q_mul (q_mul left right) 100)) 100)
    | _ => calc_step_div e
  else calc_step_div e

/-- `CalculateTool::evaluate_expression`, the `'-'` block.  The source rounds
`left - right * 100.0` — the parenthesization of the original, kept as is. -/
def calc_step_minus (e : String) : Except ErrorMsg ℚ :=
  if rust_contains e '-' then
    match rust_split e '-' with
    | [l, r] =>
      match parse_float (rust_trim l) with
      | none => .error "Invalid left operand"
      | some left =>
        match parse_float (rust_trim r) with
        | none => .error "Invalid right operand"
        | some right => .ok (Rat.divInt (round_f64 (q_sub left (q_mul right 100))) 100)
    | _ => calc_step_mul e
  else calc_step_mul e

/-- `CalculateTool::evaluate_expression`: trim, then try `'+'`, `'-'`, `'*'`,
`'/'` in order (each taken only when splitting yields exactly two parts),
finally a single-number parse.  The `'+'` block rounds `left + right * 100.0`
— the parenthesization of the original, kept as is.  The `precision` argument
is accepted and ignored, as in the source (`_precision`). -/
def evaluate_expression (expression : String) (_precision : Nat) : Except ErrorMsg ℚ :=
  let expression := rust_trim expression
  if rust_contains expression '+' then
    match rust_split expression '+' with
    | [l, r] =>
      match parse_float (rust_trim l) with
      | none => .error "Invalid left operand"
      | some left =>
        match parse_float (rust_trim r) with
        | none => .error "Invalid right operand"
        | some right => .ok (Rat.divInt (round_f64 (q_add left (q_mul right 100))) 100)
    | _ => calc_step_minus expression
  else calc_step_minus expression

/-- Stand-in for the `f64` `Display` used by `format!("Result: {}", result)`:
integral values print without a point, like Rust; no claim depends on the
rendering of non-integral values. -/
def format_rat (q : ℚ) : String :=
  if q.den = 1 then toString q.num else toString q

/-- `CalculateTool::tool_def`. -/
def calculate_tool_def : Tool :=
  { name := "calculate"
    description := "Perform basic mathematical calculations"
    input_schema := Json.obj
      [("type", .str "object"),
       ("properties", .obj
         [("expression", .obj
            [("type", .str "string"),
             ("description", .str "Mathematical expression to evaluate (e.g., '2 + 3 * 4')")]),
          ("precision", .obj
            [("type", .str "integer"),
             ("description", .str "Number of decimal places"),
             ("default", .num 2), ("minimum", .num 0), ("maximum", .num 10)])]),
       ("required", .arr [.str "expression"])]
    output_schema := none
    metadata := none }

/-- `CalculateTool::execute`. -/
def calculate_execute (args : ArgsMap) : Except ErrorMsg CallToolResponse :=
  match (args.lookup "expression").bind Json.as_str with
  | none => .error "Missing 'expression' argument"
  | some expression =>
    let precision := ((args.lookup "precision").bind Json.as_u64).getD 2
    match evaluate_expression expression precision with
    | .error e => .error e
    | .ok result =>
      .ok { content := [Content.text ("Result: " ++ format_rat result)]
            is_progress := none }

/-- `CalculateTool::validate_args`. -/
def calculate_validate_args (args : ArgsMap) : Except ErrorMsg Unit :=
  match args.lookup "expression" with
  | none => .error "Missing required 'expression' argument"
  | some expr_value =>
    if !expr_value.is_string then
      .error "'expression' must be a string"
    else
      match args.lookup "precision" with
      | some precision_value =>
        if !precision_value.is_u64 then
          .error "'precision' must be a positive integer"
        else
          .ok ()
      | none => .ok ()

/-- The `CalculateTool` implementation; its `timeout()` overrides the trait
default with 10 seconds. -/
def calculateTool : McpToolModel :=
  { tool_def := calculate_tool_def
    validate_args := calculate_validate_args
    execute := calculate_execute
    timeout := 10 }

/-- The registry contents after `ToolRegistryManager::register_builtin_tools`:
`echo` registered first, then `calculate`, starting from an empty map. -/
def builtin_registry : RegState :=
  (register_tool (register_tool [] "echo" echoTool).2 "calculate" calculateTool).2

/-! ## Parameter decoding (`serde_json::from_value`)

Each `from_json_*` mirrors the derived `Deserialize` impl: the input must be
an object, required fields must be present with the right type, `Option`
fields treat a missing key and an explicit `null` alike as `None`, and unknown
fields are ignored.  The error strings model serde's messages; no claim
depends on their wording. -/

/-- Decode `ClientCapabilities`. -/
def from_json_ClientCapabilities : Json → Except String ClientCapabilities
  | .obj fs =>
    match fs.lookup "experimental" with
    | none => .ok ⟨none⟩
    | some .null => .ok ⟨none⟩
    | some (.obj m) => .ok ⟨some m⟩
    | some _ => .error "invalid type for field experimental"
  | _ => .error "invalid type: expected struct ClientCapabilities"

/-- Decode `ClientInfo`. -/
def from_json_ClientInfo : Json → Except String ClientInfo
  | .obj fs =>
    match fs.lookup "name" with
    | some (.str n) =>
      match fs.lookup "version" with
      | some (.str v) => .ok ⟨n, v⟩
      | some _ => .error "invalid type for field version"
      | none => .error "missing field version"
    | some _ => .error "invalid type for field name"
    | none => .error "missing field name"
  | _ => .error "invalid type: expected struct ClientInfo"

/-- Decode `InitializeRequest`. -/
def from_json_InitializeRequest : Json → Except String InitializeRequest
  | .obj fs =>
    match fs.lookup "protocol_version" with
    | some (.str pv) =>
      match fs.lookup "capabilities" with
      | some capsj =>
        match from_json_ClientCapabilities capsj with
        | .error e => .error e
        | .ok caps =>
          match fs.lookup "client_info" with
          | some cij =>
            match from_json_ClientInfo cij with
            | .error e => .error e
            | .ok ci => .ok ⟨pv, caps, ci⟩
          | none => .error "missing field client_info"
      | none => .error "missing field capabilities"
    | some _ => .error "invalid type for field protocol_version"
    | none => .error "missing field protocol_version"
  | _ => .error "invalid type: expected struct InitializeRequest"

/-- Decode `CallToolRequest` (`arguments` is an optional string-keyed map). -/
def from_json_CallToolRequest : Json → Except String CallToolRequest
  | .obj fs =>
    match fs.lookup "name" with
    | some (.str n) =>
      match fs.lookup "arguments" with
      | none => .ok ⟨n, none⟩
      | some .null => .ok ⟨n, none⟩
      | some (.obj m) => .ok ⟨n, some m⟩
      | some _ => .error "invalid type for field arguments"
    | some _ => .error "invalid type for field name"
    | none => .error "missing field name"
  | _ => .error "invalid type: expected struct CallToolRequest"

/-- Decode an optional string `cursor` field, shared shape of the three
`List*Request` structs. -/
def from_json_cursor (fs : List (String × Json)) : Except String (Option String) :=
  match fs.lookup "cursor" with
  | none => .ok none
  | some .null => .ok none
  | some (.str c) => .ok (some c)
  | some _ => .error "invalid type for field cursor"

/-- Decode `ListToolsRequest`. -/
def from_json_ListToolsRequest : Json → Except String ListToolsRequest
  | .obj fs => (from_json_cursor fs).map (fun c => ⟨c⟩)
  | _ => .error "invalid type: expected struct ListToolsRequest"

/-- Decode `ListResourcesRequest`. -/
def from_json_ListResourcesRequest : Json → Except String ListResourcesRequest
  | .obj fs => (from_json_cursor fs).map (fun c => ⟨c⟩)
  | _ => .error "invalid type: expected struct ListResourcesRequest"

/-- Decode `ListPromptsRequest`. -/
def from_json_ListPromptsRequest : Json → Except String ListPromptsRequest
  | .obj fs => (from_json_cursor fs).map (fun c => ⟨c⟩)
  | _ => .error "invalid type: expected struct ListPromptsRequest"

/-! ## Protocol handler (`protocol.rs`)

The handler's `Option McpResponse` result models panics: `none` stands for an
`unwrap()` of a failed `serde_json::to_value`, the only way any handler could
fail to produce a response.  The scheduler oracle `finishes` is threaded to
`execute_tool` (see there). -/

/-- `ProtocolHandler`'s state: the shared `ServerInfo` and the contents of the
tool registry behind its `RwLock` (the `AppContext` is opaque to every code
path modelled here and is omitted). -/
structure ProtocolHandler where
  server_info : ServerInfo
  tool_registry : RegState

/-- `ProtocolHandler::get_available_resources`: always empty. -/
def get_available_resources (_h : ProtocolHandler) : List Resource := []

/-- `ProtocolHandler::get_available_prompts`: always empty. -/
def get_available_prompts (_h : ProtocolHandler) : List Prompt := []

/-- `ProtocolHandler::handle_initialize_method`. -/
def handle_initialize_method (h : ProtocolHandler) (request : McpRequest) : Option McpResponse :=
  let init_request : Except String InitializeRequest :=
    match request.params with
    | none => .error "Missing parameters"
    | some params => from_json_InitializeRequest params
  match init_request with
  | .ok init_req =>
    if init_req.protocol_version ≠ "2024-11-05" then
      some (McpResponse.mkError request.id
        (McpError.invalid_request "Unsupported protocol version"))
    else
      let response : InitializeResponse :=
        { protocol_version := "2024-11-05"
          capabilities := h.server_info.capabilities
          server_info := h.server_info }
      (ser_InitializeResponse response).toOption.map (McpResponse.success request.id)
  | .error e =>
    some (McpResponse.mkError request.id
      (McpError.invalid_params ("Invalid initialize request: " ++ e)))

/-- `ProtocolHandler::handle_initialized`: an empty success object. -/
def handle_initialized (_h : ProtocolHandler) (request : McpRequest) : Option McpResponse :=
  some (McpResponse.success request.id (Json.obj []))

/-- `ProtocolHandler::handle_tools_list`. -/
def handle_tools_list (h : ProtocolHandler) (request : McpRequest) : Option McpResponse :=
  let list_request : Except String ListToolsRequest :=
    match request.params with
    | none => .ok ⟨none⟩
    | some params =>
      (from_json_ListToolsRequest params).mapError
        (fun e => "Invalid list tools request: " ++ e)
  match list_request with
  | .ok _ =>
    let tools := list_tools h.tool_registry
    (ser_ListToolsResponse { tools := tools, next_cursor := none }).toOption.map
      (McpResponse.success request.id)
  | .error e =>
    some (McpResponse.mkError request.id (McpError.invalid_params e))

/-- `ProtocolHandler::handle_tools_call`. -/
def handle_tools_call (h : ProtocolHandler) (finishes : Bool)
    (request : McpRequest) : Option McpResponse :=
  let call_request : Except String CallToolRequest :=
    match request.params with
    | none => .error "Missing parameters"
    | some params => from_json_CallToolRequest params
  match call_request with
  | .ok call_req =>
    let args := call_req.arguments.getD []
    match execute_tool h.tool_registry call_req.name args finishes with
    | .ok result =>
      (ser_CallToolResponse result).toOption.map (McpResponse.success request.id)
    | .error e =>
      some (McpResponse.mkError request.id
        (McpError.internal_error ("Tool execution failed: " ++ e)))
  | .error e =>
    some (McpResponse.mkError request.id
      (McpError.invalid_params ("Invalid call tool request: " ++ e)))

/-- `ProtocolHandler::handle_resources_list`. -/
def handle_resources_list (h : ProtocolHandler) (request : McpRequest) : Option McpResponse :=
  let list_request : Except String ListResourcesRequest :=
    match request.params with
    | none => .ok ⟨none⟩
    | some params =>
      (from_json_ListResourcesRequest params).mapError
        (fun e => "Invalid list resources request: " ++ e)
  match list_request with
  | .ok _ =>
    let resources := get_available_resources h
    (ser_ListResourcesResponse { resources := resources, next_cursor := none }).toOption.map
      (McpResponse.success request.id)
  | .error e =>
    some (McpResponse.mkError request.id (McpError.invalid_params e))

/-- `ProtocolHandler::handle_resources_read`: unimplemented, method-not-found. -/
def handle_resources_read (_h : ProtocolHandler) (request : McpRequest) : Option McpResponse :=
  some (McpResponse.mkError request.id
    (McpError.method_not_found "Resource reading not implemented"))

/-- `ProtocolHandler::handle_prompts_list`. -/
def handle_prompts_list (h : ProtocolHandler) (request : McpRequest) : Option McpResponse :=
  let list_request : Except String ListPromptsRequest :=
    match request.params with
    | none => .ok ⟨none⟩
    | some params =>
      (from_json_ListPromptsRequest params).mapError
        (fun e => "Invalid list prompts request: " ++ e)
  match list_request with
  | .ok _ =>
    let prompts := get_available_prompts h
    (ser_ListPromptsResponse { prompts := prompts, next_cursor := none }).toOption.map
      (McpResponse.success request.id)
  | .error e =>
    some (McpResponse.mkError request.id (McpError.invalid_params e))

/-- `ProtocolHandler::handle_prompts_get`: unimplemented, method-not-found. -/
def handle_prompts_get (_h : ProtocolHandler) (request : McpRequest) : Option McpResponse :=
  some (McpResponse.mkError request.id
    (McpError.method_not_found "Prompt generation not implemented"))

/-- `ProtocolHandler::handle_ping`: an empty success object. -/
def handle_ping (_h : ProtocolHandler) (request : McpRequest) : Option McpResponse :=
  some (McpResponse.success request.id (Json.obj []))

/-- `ProtocolHandler::handle_request`: dispatch purely on the method string;
any unrecognized method gets a method-not-found error response. -/
def handle_request (h : ProtocolHandler) (finishes : Bool)
    (request : McpRequest) : Option McpResponse :=
  match request.method with
  | "initialize" => handle_initialize_method h request
  | "initialized" => handle_initialized h request
  | "tools/list" => handle_tools_list h request
  | "tools/call" => handle_tools_call h finishes request
  | "resources/list" => handle_resources_list h request
  | "resources/read" => handle_resources_read h request
  | "prompts/list" => handle_prompts_list h request
  | "prompts/get" => handle_prompts_get h request
  | "ping" => handle_ping h request
  | _ =>
    some (McpResponse.mkError request.id
      (McpError.method_not_found ("Method '" ++ request.method ++ "' not found")))

/-! ## WebSocket transport (`transport.rs`)

`GET /mcp/ws` is served by `handle_websocket_upgrade`, which at present never
upgrades the connection: it unconditionally replies with a fixed JSON body
(the connection-loop that would parse frames and answer parse errors is
commented out in the source). -/

/-- `transport.rs` `handle_websocket_upgrade`: the fixed placeholder body it
returns for every `GET /mcp/ws`, regardless of state or input. -/
def handle_websocket_upgrade : Json :=
  Json.obj [("error", .str "WebSocket support not yet implemented"),
            ("message", .str "Use HTTP endpoint instead")]

/-! ## Statement vocabulary -/

/-- Exactly one of `result`/`error` is present on a response. -/
def result_error_exclusive (r : McpResponse) : Bool :=
  (r.result.isSome && r.error.isNone) || (r.result.isNone && r.error.isSome)

/-- `pat` occurs as a contiguous substring of `s` (Rust `str::contains`). -/
def str_contains (s pat : String) : Prop :=
  pat.toList <:+: s.toList

/-- A concrete `ServerInfo`, used to instantiate universally quantified
theorems at a specific input (any value works for them; the fields follow the
shape built in `server.rs`). -/
def sample_server_info : ServerInfo :=
  { name := "Loco MCP Server"
    version := "0.1.0"
    protocol_version := "2024-11-05"
    capabilities :=
      { tools := some ⟨some false⟩
        resources := some ⟨some false, some false⟩
        prompts := some ⟨some false⟩
        logging := some ⟨some "info"⟩ }
    server_info := some [("framework", .str "Loco"), ("version", .str "0.1.0")] }

/-! ## Correctness of the arithmetic encoding -/

/-- `q_add` is addition on `ℚ`. -/
theorem q_add_eq (a b : ℚ) : q_add a b = a + b := by
  conv_rhs => rw [← Rat.num_divInt_den a, ← Rat.num_divInt_den b]
  rw [Rat.divInt_add_divInt _ _ (Int.natCast_ne_zero.mpr a.den_nz)
    (Int.natCast_ne_zero.mpr b.den_nz)]
  rfl

/-- `q_sub` is subtraction on `ℚ`. -/
theorem q_sub_eq (a b : ℚ) : q_sub a b = a - b := by
  conv_rhs => rw [← Rat.num_divInt_den a, ← Rat.num_divInt_den b]
  rw [Rat.divInt_sub_divInt _ _ (Int.natCast_ne_zero.mpr a.den_nz)
    (Int.natCast_ne_zero.mpr b.den_nz)]
  rfl

/-- `q_mul` is multiplication on `ℚ`. -/
theorem q_mul_eq (a b : ℚ) : q_mul a b = a * b := by
  conv_rhs => rw [← Rat.num_divInt_den a, ← Rat.num_divInt_den b]
  rw [Rat.divInt_mul_divInt']
  rfl

/-- `q_div` is division on `ℚ`. -/
theorem q_div_eq (a b : ℚ) : q_div a b = a / b := by
  conv_rhs => rw [← Rat.num_divInt_den a, ← Rat.num_divInt_den b]
  rw [Rat.divInt_div_divInt]
  rfl

/-! ## Serialization never fails on the handler's response types -/

/-- Reducing a bind on an `ok` value (the step of serde's error plumbing). -/
theorem except_bind_ok {ε α β : Type} (a : α) (f : α → Except ε β) :
    (Except.ok a : Except ε α) >>= f = f a := rfl

/-- `ser_bool` always succeeds. -/
theorem ser_bool_ok (b : Bool) : ∃ j, ser_bool b = .ok j := ⟨_, rfl⟩

/-- `ser_str` always succeeds. -/
theorem ser_str_ok (s : String) : ∃ j, ser_str s = .ok j := ⟨_, rfl⟩

/-- `ser_json` always succeeds. -/
theorem ser_json_ok (j : Json) : ∃ j', ser_json j = .ok j' := ⟨_, rfl⟩

/-- `ser_strmap` always succeeds (keys are strings by type). -/
theorem ser_strmap_ok (m : List (String × Json)) : ∃ j, ser_strmap m = .ok j := ⟨_, rfl⟩

/-- `ser_opt` succeeds whenever the element serializer does. -/
theorem ser_opt_ok {f : α → Except String Json} (hf : ∀ x, ∃ j, f x = .ok j) :
    ∀ o, ∃ j, ser_opt f o = .ok j := by
  intro o
  cases o with
  | none => exact ⟨.null, rfl⟩
  | some x => exact hf x

/-- `ser_list` succeeds whenever the element serializer does. -/
theorem ser_list_ok {f : α → Except String Json} (hf : ∀ x, ∃ j, f x = .ok j) :
    ∀ xs, ∃ j, ser_list f xs = .ok j := by
  intro xs
  suffices h : ∃ js, xs.mapM f = Except.ok js by
    obtain ⟨js, hjs⟩ := h
    simp only [ser_list, hjs, except_bind_ok]
    exact ⟨_, rfl⟩
  induction xs with
  | nil => exact ⟨[], rfl⟩
  | cons x xs ih =>
    obtain ⟨js, hjs⟩ := ih
    obtain ⟨j, hj⟩ := hf x
    refine ⟨j :: js, ?_⟩
    rw [List.mapM_cons, hj, except_bind_ok, hjs, except_bind_ok]
    rfl

/-- Serializing `ToolCapabilities` always succeeds. -/
theorem ser_ToolCapabilities_ok (c : ToolCapabilities) :
    ∃ j, ser_ToolCapabilities c = .ok j := by
  obtain ⟨j, hj⟩ := ser_opt_ok ser_bool_ok c.list_changed
  simp only [ser_ToolCapabilities, hj, except_bind_ok]
  exact ⟨_, rfl⟩

/-- Serializing `ResourceCapabilities` always succeeds. -/
theorem ser_ResourceCapabilities_ok (c : ResourceCapabilities) :
    ∃ j, ser_ResourceCapabilities c = .ok j := by
  obtain ⟨j₁, h₁⟩ := ser_opt_ok ser_bool_ok c.subscribe
  obtain ⟨j₂, h₂⟩ := ser_opt_ok ser_bool_ok c.list_changed
  simp only [ser_ResourceCapabilities, h₁, except_bind_ok, h₂, except_bind_ok]
  exact ⟨_, rfl⟩

/-- Serializing `PromptCapabilities` always succeeds. -/
theorem ser_PromptCapabilities_ok (c : PromptCapabilities) :
    ∃ j, ser_PromptCapabilities c = .ok j := by
  obtain ⟨j, hj⟩ := ser_opt_ok ser_bool_ok c.list_changed
  simp only [ser_PromptCapabilities, hj, except_bind_ok]
  exact ⟨_, rfl⟩

/-- Serializing `LoggingCapabilities` always succeeds. -/
theorem ser_LoggingCapabilities_ok (c : LoggingCapabilities) :
    ∃ j, ser_LoggingCapabilities c = .ok j := by
  obtain ⟨j, hj⟩ := ser_opt_ok ser_str_ok c.level
  simp only [ser_LoggingCapabilities, hj, except_bind_ok]
  exact ⟨_, rfl⟩

/-- Serializing `ServerCapabilities` always succeeds. -/
theorem ser_ServerCapabilities_ok (c : ServerCapabilities) :
    ∃ j, ser_ServerCapabilities c = .ok j := by
  obtain ⟨j₁, h₁⟩ := ser_opt_ok ser_ToolCapabilities_ok c.tools
  obtain ⟨j₂, h₂⟩ := ser_opt_ok ser_ResourceCapabilities_ok c.resources
  obtain ⟨j₃, h₃⟩ := ser_opt_ok ser_PromptCapabilities_ok c.prompts
  obtain ⟨j₄, h₄⟩ := ser_opt_ok ser_LoggingCapabilities_ok c.logging
  simp only [ser_ServerCapabilities, h₁, except_bind_ok, h₂, except_bind_ok, h₃, except_bind_ok, h₄, except_bind_ok]
  exact ⟨_, rfl⟩

/-- Serializing `ServerInfo` always succeeds. -/
theorem ser_ServerInfo_ok (si : ServerInfo) : ∃ j, ser_ServerInfo si = .ok j := by
  obtain ⟨j₁, h₁⟩ := ser_ServerCapabilities_ok si.capabilities
  obtain ⟨j₂, h₂⟩ := ser_opt_ok ser_strmap_ok si.server_info
  simp only [ser_ServerInfo, h₁, except_bind_ok, h₂, except_bind_ok]
  exact ⟨_, rfl⟩

/-- Serializing `InitializeResponse` always succeeds: the `unwrap` in
`handle_initialize_method` is unreachable as a failure. -/
theorem ser_InitializeResponse_ok (r : InitializeResponse) :
    ∃ j, ser_InitializeResponse r = .ok j := by
  obtain ⟨j₁, h₁⟩ := ser_ServerCapabilities_ok r.capabilities
  obtain ⟨j₂, h₂⟩ := ser_ServerInfo_ok r.server_info
  simp only [ser_InitializeResponse, h₁, except_bind_ok, h₂, except_bind_ok]
  exact ⟨_, rfl⟩

/-- Serializing a `Tool` definition always succeeds. -/
theorem ser_Tool_ok (t : Tool) : ∃ j, ser_Tool t = .ok j := by
  obtain ⟨j₁, h₁⟩ := ser_opt_ok ser_json_ok t.output_schema
  obtain ⟨j₂, h₂⟩ := ser_opt_ok ser_strmap_ok t.metadata
  simp only [ser_Tool, h₁, except_bind_ok, h₂, except_bind_ok]
  exact ⟨_, rfl⟩

/-- Serializing `ListToolsResponse` always succeeds: the `unwrap` in
`handle_tools_list` is unreachable as a failure. -/
theorem ser_ListToolsResponse_ok (r : ListToolsResponse) :
    ∃ j, ser_ListToolsResponse r = .ok j := by
  obtain ⟨j₁, h₁⟩ := ser_list_ok ser_Tool_ok r.tools
  obtain ⟨j₂, h₂⟩ := ser_opt_ok ser_str_ok r.next_cursor
  simp only [ser_ListToolsResponse, h₁, except_bind_ok, h₂, except_bind_ok]
  exact ⟨_, rfl⟩

/-- Serializing a `Resource` always succeeds. -/
theorem ser_Resource_ok (r : Resource) : ∃ j, ser_Resource r = .ok j := by
  obtain ⟨j₁, h₁⟩ := ser_opt_ok ser_str_ok r.description
  obtain ⟨j₂, h₂⟩ := ser_opt_ok ser_str_ok r.mime_type
  obtain ⟨j₃, h₃⟩ := ser_opt_ok ser_strmap_ok r.metadata
  simp only [ser_Resource, h₁, except_bind_ok, h₂, except_bind_ok, h₃, except_bind_ok]
  exact ⟨_, rfl⟩

/-- Serializing a `Content` block always succeeds. -/
theorem ser_Content_ok (c : Content) : ∃ j, ser_Content c = .ok j := by
  cases c with
  | text t => exact ⟨_, rfl⟩
  | image d mt => exact ⟨_, rfl⟩
  | resource r t =>
    obtain ⟨j₁, h₁⟩ := ser_Resource_ok r
    obtain ⟨j₂, h₂⟩ := ser_opt_ok ser_str_ok t
    simp only [ser_Content, h₁, except_bind_ok, h₂, except_bind_ok]
    exact ⟨_, rfl⟩

/-- Serializing `CallToolResponse` always succeeds: the `unwrap` in
`handle_tools_call` is unreachable as a failure. -/
theorem ser_CallToolResponse_ok (r : CallToolResponse) :
    ∃ j, ser_CallToolResponse r = .ok j := by
  obtain ⟨j₁, h₁⟩ := ser_list_ok ser_Content_ok r.content
  obtain ⟨j₂, h₂⟩ := ser_opt_ok ser_bool_ok r.is_progress
  simp only [ser_CallToolResponse, h₁, except_bind_ok, h₂, except_bind_ok]
  exact ⟨_, rfl⟩

/-- Serializing `ListResourcesResponse` always succeeds. -/
theorem ser_ListResourcesResponse_ok (r : ListResourcesResponse) :
    ∃ j, ser_ListResourcesResponse r = .ok j := by
  obtain ⟨j₁, h₁⟩ := ser_list_ok ser_Resource_ok r.resources
  obtain ⟨j₂, h₂⟩ := ser_opt_ok ser_str_ok r.next_cursor
  simp only [ser_ListResourcesResponse, h₁, except_bind_ok, h₂, except_bind_ok]
  exact ⟨_, rfl⟩

/-- Serializing a `PromptArgument` always succeeds. -/
theorem ser_PromptArgument_ok (a : PromptArgument) :
    ∃ j, ser_PromptArgument a = .ok j := by
  obtain ⟨j₁, h₁⟩ := ser_opt_ok ser_json_ok a.default
  simp only [ser_PromptArgument, h₁, except_bind_ok]
  exact ⟨_, rfl⟩

/-- Serializing a `Prompt` always succeeds. -/
theorem ser_Prompt_ok (p : Prompt) : ∃ j, ser_Prompt p = .ok j := by
  obtain ⟨j₁, h₁⟩ := ser_list_ok ser_PromptArgument_ok p.arguments
  obtain ⟨j₂, h₂⟩ := ser_opt_ok ser_strmap_ok p.metadata
  simp only [ser_Prompt, h₁, except_bind_ok, h₂, except_bind_ok]
  exact ⟨_, rfl⟩

/-- Serializing `ListPromptsResponse` always succeeds. -/
theorem ser_ListPromptsResponse_ok (r : ListPromptsResponse) :
    ∃ j, ser_ListPromptsResponse r = .ok j := by
  obtain ⟨j₁, h₁⟩ := ser_list_ok ser_Prompt_ok r.prompts
  obtain ⟨j₂, h₂⟩ := ser_opt_ok ser_str_ok r.next_cursor
  simp only [ser_ListPromptsResponse, h₁, except_bind_ok, h₂, except_bind_ok]
  exact ⟨_, rfl⟩

/-! ## Shape of every handler's response

Shared backbone of the totality, exclusivity and id-echo claims: each handler
produces `some` response, that response has exactly one of `result`/`error`,
and it carries the request's id. -/

/-- The response shape every claim about `handle_request` factors through. -/
def response_shape (req : McpRequest) (o : Option McpResponse) : Prop :=
  ∃ r, o = some r ∧ result_error_exclusive r = true ∧ r.id = req.id

/-- `handle_initialize_method` satisfies the response shape. -/
theorem handle_initialize_shape (h : ProtocolHandler) (req : McpRequest) :
    response_shape req (handle_initialize_method h req) := by
  simp only [response_shape, handle_initialize_method]
  split
  · split
    · exact ⟨_, rfl, rfl, rfl⟩
    · obtain ⟨j, hj⟩ := ser_InitializeResponse_ok
        ⟨"2024-11-05", h.server_info.capabilities, h.server_info⟩
      simp only [hj, Except.toOption, Option.map]
      exact ⟨_, rfl, rfl, rfl⟩
  · exact ⟨_, rfl, rfl, rfl⟩

/-- `handle_initialized` satisfies the response shape. -/
theorem handle_initialized_shape (h : ProtocolHandler) (req : McpRequest) :
    response_shape req (handle_initialized h req) :=
  ⟨_, rfl, rfl, rfl⟩

/-- `handle_tools_list` satisfies the response shape. -/
theorem handle_tools_list_shape (h : ProtocolHandler) (req : McpRequest) :
    response_shape req (handle_tools_list h req) := by
  simp only [response_shape, handle_tools_list]
  split
  · obtain ⟨j, hj⟩ := ser_ListToolsResponse_ok ⟨list_tools h.tool_registry, none⟩
    simp only [hj, Except.toOption, Option.map]
    exact ⟨_, rfl, rfl, rfl⟩
  · exact ⟨_, rfl, rfl, rfl⟩

/-- `handle_tools_call` satisfies the response shape. -/
theorem handle_tools_call_shape (h : ProtocolHandler) (fin : Bool) (req : McpRequest) :
    response_shape req (handle_tools_call h fin req) := by
  simp only [response_shape, handle_tools_call]
  split
  case _ call_req _ =>
    split
    case _ result _ =>
      obtain ⟨j, hj⟩ := ser_CallToolResponse_ok result
      simp only [hj, Except.toOption, Option.map]
      exact ⟨_, rfl, rfl, rfl⟩
    case _ e _ => exact ⟨_, rfl, rfl, rfl⟩
  case _ e _ => exact ⟨_, rfl, rfl, rfl⟩

/-- `handle_resources_list` satisfies the response shape. -/
theorem handle_resources_list_shape (h : ProtocolHandler) (req : McpRequest) :
    response_shape req (handle_resources_list h req) := by
  simp only [response_shape, handle_resources_list]
  split
  · obtain ⟨j, hj⟩ := ser_ListResourcesResponse_ok ⟨get_available_resources h, none⟩
    simp only [hj, Except.toOption, Option.map]
    exact ⟨_, rfl, rfl, rfl⟩
  · exact ⟨_, rfl, rfl, rfl⟩

/-- `handle_resources_read` satisfies the response shape. -/
theorem handle_resources_read_shape (h : ProtocolHandler) (req : McpRequest) :
    response_shape req (handle_resources_read h req) :=
  ⟨_, rfl, rfl, rfl⟩

/-- `handle_prompts_list` satisfies the response shape. -/
theorem handle_prompts_list_shape (h : ProtocolHandler) (req : McpRequest) :
    response_shape req (handle_prompts_list h req) := by
  simp only [response_shape, handle_prompts_list]
  split
  · obtain ⟨j, hj⟩ := ser_ListPromptsResponse_ok ⟨get_available_prompts h, none⟩
    simp only [hj, Except.toOption, Option.map]
    exact ⟨_, rfl, rfl, rfl⟩
  · exact ⟨_, rfl, rfl, rfl⟩

/-- `handle_prompts_get` satisfies the response shape. -/
theorem handle_prompts_get_shape (h : ProtocolHandler) (req : McpRequest) :
    response_shape req (handle_prompts_get h req) :=
  ⟨_, rfl, rfl, rfl⟩

/-- `handle_ping` satisfies the response shape. -/
theorem handle_ping_shape (h : ProtocolHandler) (req : McpRequest) :
    response_shape req (handle_ping h req) :=
  ⟨_, rfl, rfl, rfl⟩

/-- `handle_request` satisfies the response shape on every input: every
dispatch branch, known or unknown method, produces a response. -/
theorem handle_request_shape (h : ProtocolHandler) (fin : Bool) (req : McpRequest) :
    response_shape req (handle_request h fin req) := by
  simp only [handle_request]
  split
  · exact handle_initialize_shape h req
  · exact handle_initialized_shape h req
  · exact handle_tools_list_shape h req
  · exact handle_tools_call_shape h fin req
  · exact handle_resources_list_shape h req
  · exact handle_resources_read_shape h req
  · exact handle_prompts_list_shape h req
  · exact handle_prompts_get_shape h req
  · exact handle_ping_shape h req
  · exact ⟨_, rfl, rfl, rfl⟩

/-! ## Remaining helper lemmas -/

/-- The not-found message of `execute_tool` contains `not found` whatever the
tool name is. -/
theorem not_found_substring (name : String) :
    str_contains ("Tool '" ++ name ++ "' not found") "not found" := by
  refine ⟨("Tool '" ++ name ++ "' ").toList, [], ?_⟩
  simp only [String.toList, String.data_append, List.append_nil, List.append_assoc]
  have h : "' ".data ++ "not found".data = "' not found".data := by decide
  rw [h]

/-- A tool found by lookup has its definition in `list_tools`. -/
theorem lookup_tool_def_mem :
    ∀ {reg : RegState} {name : String} {t : McpToolModel},
      reg.lookup name = some t → t.tool_def ∈ list_tools reg := by
  intro reg
  induction reg with
  | nil => intro name t h; simp [List.lookup] at h
  | cons hd tl ih =>
    intro name t h
    obtain ⟨k, v⟩ := hd
    simp only [List.lookup] at h
    simp only [list_tools, List.map_cons, List.mem_cons]
    split at h
    · cases h
      exact Or.inl rfl
    · exact Or.inr (ih h)

/-! ## The claims -/

/-- Claim C1: for every decoded request (any method, any params, any id) and
any registry state and scheduler outcome, `handle_request` returns a response:
no dispatch branch panics (in particular the `serde_json::to_value(..).unwrap()`
calls on the success paths never fail) or propagates an error past the
handler. -/
theorem handle_request_total (h : ProtocolHandler) (fin : Bool) (req : McpRequest) :
    (handle_request h fin req).isSome = true := by
  obtain ⟨r, hr, -, -⟩ := handle_request_shape h fin req
  rw [hr]
  rfl

/-- Claim C2: `McpResponse.success` and `McpResponse.mkError` — the only two
constructors — each set exactly one of `result`/`error`, and consequently every
response `handle_request` produces has exactly one of the two: never both,
never neither. -/
theorem mcp_response_exclusivity :
    (∀ i v, result_error_exclusive (McpResponse.success i v) = true) ∧
    (∀ i e, result_error_exclusive (McpResponse.mkError i e) = true) ∧
    (∀ (h : ProtocolHandler) (fin : Bool) (req : McpRequest),
      (handle_request h fin req).all result_error_exclusive = true) := by
  refine ⟨fun i v => rfl, fun i e => rfl, fun h fin req => ?_⟩
  obtain ⟨r, hr, hex, -⟩ := handle_request_shape h fin req
  rw [hr]
  exact hex

/-- Claim C3: for every request with a non-null id, the response returned by
`handle_request` carries the identical id — for every method, known or
unknown, and on both the success and the error path. -/
theorem handle_request_id_echo (h : ProtocolHandler) (fin : Bool)
    (req : McpRequest) (r : McpResponse) (_hid : req.id ≠ RequestId.null)
    (hr : handle_request h fin req = some r) : r.id = req.id := by
  obtain ⟨r', hr', -, hid'⟩ := handle_request_shape h fin req
  rw [hr] at hr'
  injection hr' with hh
  rw [hh]
  exact hid'

/-- Witness for C3 at a concrete ping request with id 1. -/
theorem handle_request_id_echo_witness :
    (McpResponse.success (RequestId.number 1) (Json.obj [])).id = RequestId.number 1 :=
  handle_request_id_echo ⟨sample_server_info, []⟩ true
    ⟨RequestId.number 1, "ping", none, none⟩
    (McpResponse.success (RequestId.number 1) (Json.obj [])) (by decide) rfl

/-- Claim C4: `execute_tool` (a) fails with a not-found error containing
"not found" when the name is unregistered; (b) runs `validate_args` first and,
when it rejects, fails with that error without consulting the execution at all
(for either scheduler outcome); (c) when the deadline — the tool's declared
`timeout`, whose trait default is 30 seconds — fires first, fails with a
timeout error naming the tool and the configured bound; (d) otherwise returns
the tool's result or propagates the tool's own failure. -/
theorem execute_tool_spec :
    (∀ (reg : RegState) (name : String) (args : ArgsMap) (fin : Bool),
      reg.lookup name = none →
        execute_tool reg name args fin = .error ("Tool '" ++ name ++ "' not found") ∧
        str_contains ("Tool '" ++ name ++ "' not found") "not found") ∧
    (∀ (reg : RegState) (name : String) (args : ArgsMap) (fin : Bool)
        (tool : McpToolModel) (e : ErrorMsg),
      reg.lookup name = some tool → tool.validate_args args = .error e →
        execute_tool reg name args fin = .error e) ∧
    (∀ (reg : RegState) (name : String) (args : ArgsMap) (tool : McpToolModel),
      reg.lookup name = some tool → tool.validate_args args = .ok () →
        execute_tool reg name args false =
          .error ("Tool '" ++ name ++ "' execution timed out after " ++
            format_duration tool.timeout)) ∧
    (∀ (reg : RegState) (name : String) (args : ArgsMap) (tool : McpToolModel),
      reg.lookup name = some tool → tool.validate_args args = .ok () →
        execute_tool reg name args true = tool.execute args) ∧
    (∀ d v ex,
      ({ tool_def := d, validate_args := v, execute := ex } : McpToolModel).timeout = 30) := by
  refine ⟨?_, ?_, ?_, ?_, fun d v ex => rfl⟩
  · intro reg name args fin hl
    refine ⟨?_, not_found_substring name⟩
    simp only [execute_tool, hl]
  · intro reg name args fin tool e hl hv
    simp only [execute_tool, hl, hv]
  · intro reg name args tool hl hv
    simp only [execute_tool, hl, hv]
    rw [if_neg Bool.false_ne_true]
  · intro reg name args tool hl hv
    simp only [execute_tool, hl, hv]
    rw [if_pos trivial]
    cases tool.execute args <;> rfl

/-- Witness for C4: each clause at a concrete registry/tool/argument map. -/
theorem execute_tool_spec_witness :
    execute_tool builtin_registry "nosuch" [] true =
      .error "Tool 'nosuch' not found" ∧
    execute_tool builtin_registry "echo" [] true =
      .error "Missing required 'text' argument" ∧
    execute_tool builtin_registry "echo" [("text", Json.str "hi")] false =
      .error "Tool 'echo' execution timed out after 30s" ∧
    execute_tool builtin_registry "echo" [("text", Json.str "hi")] true =
      .ok { content := [Content.text "hi"], is_progress := none } :=
  ⟨(execute_tool_spec.1 builtin_registry "nosuch" [] true rfl).1,
   execute_tool_spec.2.1 builtin_registry "echo" [] true echoTool
     "Missing required 'text' argument" rfl rfl,
   execute_tool_spec.2.2.1 builtin_registry "echo" [("text", Json.str "hi")]
     echoTool rfl rfl,
   execute_tool_spec.2.2.2.1 builtin_registry "echo" [("text", Json.str "hi")]
     echoTool rfl rfl⟩

/-- Claim C5: `tools/call` on the echo tool with no `text` argument yields an
error response whose code is -32602 or -32603 (here -32603: the registry's
validation failure is wrapped by the handler as internal-error) and whose
message mentions the missing `'text'` argument — for every server info and
scheduler outcome. -/
theorem tools_call_echo_missing_text (si : ServerInfo) (fin : Bool) :
    handle_request ⟨si, builtin_registry⟩ fin
        ⟨RequestId.number 7, "tools/call", some (.obj [("name", .str "echo")]), none⟩ =
      some (McpResponse.mkError (RequestId.number 7)
        (McpError.internal_error
          "Tool execution failed: Missing required 'text' argument")) ∧
    (McpError.internal_error
        "Tool execution failed: Missing required 'text' argument").code = -32603 ∧
    str_contains "Tool execution failed: Missing required 'text' argument" "'text'" :=
  ⟨rfl, rfl,
   ⟨"Tool execution failed: Missing required ".toList, " argument".toList, by decide⟩⟩

/-- Claim C6: registering under a name that is already taken fails with the
registration-conflict error and leaves the registry unchanged — same state,
same `list_tools`, same `tool_count`, the first tool's definition still
listed. -/
theorem register_tool_duplicate (reg : RegState) (name : String)
    (t₀ t₁ : McpToolModel) (h : reg.lookup name = some t₀) :
    register_tool reg name t₁ =
      (.error ("Tool '" ++ name ++ "' already registered"), reg) ∧
    list_tools (register_tool reg name t₁).2 = list_tools reg ∧
    tool_count (register_tool reg name t₁).2 = tool_count reg ∧
    t₀.tool_def ∈ list_tools (register_tool reg name t₁).2 := by
  have hc : contains_key reg name = true := by
    simp [contains_key, h]
  have h1 : register_tool reg name t₁ =
      (.error ("Tool '" ++ name ++ "' already registered"), reg) := by
    simp [register_tool, hc]
  refine ⟨h1, by rw [h1], by rw [h1], ?_⟩
  rw [h1]
  exact lookup_tool_def_mem h

/-- Witness for C6: registering a second tool under `echo` on the built-in
registry. -/
theorem register_tool_duplicate_witness :
    register_tool builtin_registry "echo" calculateTool =
      (.error "Tool 'echo' already registered", builtin_registry) ∧
    list_tools (register_tool builtin_registry "echo" calculateTool).2 =
      list_tools builtin_registry ∧
    tool_count (register_tool builtin_registry "echo" calculateTool).2 =
      tool_count builtin_registry ∧
    echoTool.tool_def ∈ list_tools (register_tool builtin_registry "echo" calculateTool).2 :=
  register_tool_duplicate builtin_registry "echo" echoTool calculateTool rfl

/-- Claim C7: when the params of an `initialize` request decode as an
`InitializeRequest`, a protocol version different from `2024-11-05` yields an
invalid-request (-32600) error response, and the matching version yields a
success response carrying the serialized `InitializeResponse` (protocol
version, server capabilities and `ServerInfo`). -/
theorem handle_initialize_version_check (si : ServerInfo) (reg : RegState)
    (fin : Bool) (req : McpRequest) (p : Json) (ir : InitializeRequest)
    (hm : req.method = "initialize") (hp : req.params = some p)
    (hir : from_json_InitializeRequest p = .ok ir) :
    (ir.protocol_version ≠ "2024-11-05" →
      handle_request ⟨si, reg⟩ fin req =
        some (McpResponse.mkError req.id
          (McpError.invalid_request "Unsupported protocol version"))) ∧
    (ir.protocol_version = "2024-11-05" →
      ∃ j, ser_InitializeResponse ⟨"2024-11-05", si.capabilities, si⟩ = .ok j ∧
        handle_request ⟨si, reg⟩ fin req = some (McpResponse.success req.id j)) := by
  have hreq : handle_request ⟨si, reg⟩ fin req = handle_initialize_method ⟨si, reg⟩ req := by
    simp only [handle_request, hm]
  constructor
  · intro hne
    rw [hreq]
    simp only [handle_initialize_method, hp, hir]
    rw [if_pos hne]
  · intro heq
    obtain ⟨j, hj⟩ := ser_InitializeResponse_ok ⟨"2024-11-05", si.capabilities, si⟩
    refine ⟨j, hj, ?_⟩
    rw [hreq]
    simp only [handle_initialize_method, hp, hir, heq]
    simp [hj, Except.toOption]

/-- Witness for C7: a rejected `initialize` with version `1.0.0` and an
accepted one with version `2024-11-05`, against the sample server info. -/
theorem handle_initialize_version_check_witness :
    (handle_request ⟨sample_server_info, []⟩ true
        ⟨RequestId.number 4, "initialize",
          some (.obj [("protocol_version", .str "1.0.0"), ("capabilities", .obj []),
            ("client_info", .obj [("name", .str "c"), ("version", .str "1")])]), none⟩ =
      some (McpResponse.mkError (RequestId.number 4)
        (McpError.invalid_request "Unsupported protocol version"))) ∧
    (∃ j, ser_InitializeResponse
        ⟨"2024-11-05", sample_server_info.capabilities, sample_server_info⟩ = .ok j ∧
      handle_request ⟨sample_server_info, []⟩ true
        ⟨RequestId.number 5, "initialize",
          some (.obj [("protocol_version", .str "2024-11-05"), ("capabilities", .obj []),
            ("client_info", .obj [("name", .str "c"), ("version", .str "1")])]), none⟩ =
        some (McpResponse.success (RequestId.number 5) j)) :=
  ⟨(handle_initialize_version_check sample_server_info [] true
      ⟨RequestId.number 4, "initialize",
        some (.obj [("protocol_version", .str "1.0.0"), ("capabilities", .obj []),
          ("client_info", .obj [("name", .str "c"), ("version", .str "1")])]), none⟩
      (.obj [("protocol_version", .str "1.0.0"), ("capabilities", .obj []),
        ("client_info", .obj [("name", .str "c"), ("version", .str "1")])])
      ⟨"1.0.0", ⟨none⟩, ⟨"c", "1"⟩⟩ rfl rfl rfl).1 (by decide),
   (handle_initialize_version_check sample_server_info [] true
      ⟨RequestId.number 5, "initialize",
        some (.obj [("protocol_version", .str "2024-11-05"), ("capabilities", .obj []),
          ("client_info", .obj [("name", .str "c"), ("version", .str "1")])]), none⟩
      (.obj [("protocol_version", .str "2024-11-05"), ("capabilities", .obj []),
        ("client_info", .obj [("name", .str "c"), ("version", .str "1")])])
      ⟨"2024-11-05", ⟨none⟩, ⟨"c", "1"⟩⟩ rfl rfl rfl).2 rfl⟩

/-- Claim C8 (code bug): the `GET /mcp/ws` handler is a placeholder — its
reply is the fixed body below, which is not a JSON-RPC response at all: it has
no `id` field (so no Null id), and its `error` field is a bare string rather
than an error object with code -32700.  No WebSocket loop exists (it is
commented out in the source), so no frame, malformed or valid, is ever
answered. -/
theorem websocket_upgrade_stub :
    (match handle_websocket_upgrade with
      | Json.obj fs => fs.lookup "id"
      | _ => none) = none ∧
    (match handle_websocket_upgrade with
      | Json.obj fs => fs.lookup "error"
      | _ => none) = some (Json.str "WebSocket support not yet implemented") :=
  ⟨rfl, rfl⟩

/-- Claim C9 (code bug): on `"2 + 3"` the calculator returns 3.02 — the
source rounds `left + right * 100.0` instead of `(left + right) * 100.0` — so
the produced text does not state the sum 5; the 10-second timeout part of the
claim does hold. -/
theorem calculate_plus_rounding_slip :
    evaluate_expression "2 + 3" 2 = .ok (Rat.divInt 302 100) ∧
    Rat.divInt 302 100 ≠ (5 : ℚ) ∧
    calculateTool.timeout = 10 :=
  ⟨rfl, by decide, rfl⟩

/-- Claim C10: two argument maps that agree on `expression` give the same
`CalculateTool::execute` result whatever their `precision` entries are — the
precision is parsed but never used. -/
theorem calculate_execute_precision_independent (m₁ m₂ : ArgsMap)
    (h : m₁.lookup "expression" = m₂.lookup "expression") :
    calculate_execute m₁ = calculate_execute m₂ := by
  simp only [calculate_execute, h]
  rfl

/-- Witness for C10: `precision` 0 versus no precision at all. -/
theorem calculate_execute_precision_independent_witness :
    calculate_execute [("expression", Json.str "2"), ("precision", Json.num 0)] =
      calculate_execute [("expression", Json.str "2")] :=
  calculate_execute_precision_independent
    [("expression", Json.str "2"), ("precision", Json.num 0)]
    [("expression", Json.str "2")] rfl

end Mcp

